import Mathlib

/-!
Verification of the Swiss-Airline assistant backend (shallow embedding).

The Python sources are embedded as executable Lean definitions:
pure string manipulation is translated directly; external effects
(Ollama/Gemini generation, the SQLite store, the embedding service,
JSON serialisation, the clock) are parameters ("oracles") supplied in
environment structures, so theorems quantify over every possible
behaviour of those services.  Python exceptions at oracle boundaries
are `Except` values; Python functions that catch all their exceptions
internally are total Lean functions.
-/

namespace Swiss

/-- A chat message `{role, content}` (backend/graph/workflow.py `State.messages`). -/
structure Msg where
  role : String
  content : String
deriving DecidableEq, Repr

/-- `subList n h = true` iff `n` is a contiguous sublist of `h`. -/
def subList (n : List Char) : List Char → Bool
  | [] => n.isEmpty
  | c :: t => n.isPrefixOf (c :: t) || subList n t

/-- Python `needle in hay` substring test. -/
def containsSub (needle hay : String) : Bool :=
  subList needle.toList hay.toList

/-- Python `any(word in ql for word in ws)`. -/
def hasAnyWord (ql : String) (ws : List String) : Bool :=
  ws.any (fun w => containsSub w ql)

/-- Python `str.lower()` (ASCII-faithful; every keyword and list entry it
is compared against is ASCII). -/
def pyLower (s : String) : String := ⟨s.data.map Char.toLower⟩

/-- Python `str.upper()`. -/
def pyUpper (s : String) : String := ⟨s.data.map Char.toUpper⟩

/-- Worker for `pyTitle`: capitalise the character at the start and after
each space. -/
def titleGo : Bool → List Char → List Char
  | _, [] => []
  | atStart, c :: t =>
    if c = ' ' then c :: titleGo true t
    else (if atStart then c.toUpper else c) :: titleGo false t

/-- Python `str.title()` for lowercase ASCII space-separated input
(the only inputs it receives here are the fixed city list). -/
def pyTitle (s : String) : String := ⟨titleGo true s.data⟩

/-- Python `str.strip()`: drop leading and trailing whitespace. -/
def pyStrip (s : String) : String :=
  ⟨dropLeadingWs (dropLeadingWs s.data.reverse).reverse⟩
where
  dropLeadingWs : List Char → List Char
    | [] => []
    | c :: t => if c.isWhitespace then dropLeadingWs t else c :: t

/-! ## backend/tools: booking tools (hotels.py, car_rentals.py, excursions.py, flights.py)

Each booking tool validates its arguments with Python falsiness checks
(`if not x`) and either raises `ValueError` (here: `Except.error`) or
returns a confirmation f-string.  Arguments are strings; an absent or
`None` argument behaves like the empty string under `not x`. -/

/-- backend/tools/hotels.py `book_hotel`. -/
def book_hotel (hotel_id passenger_id : String) : Except String String :=
  if passenger_id = "" then
    Except.error "No passenger ID provided. Authorization required."
  else if hotel_id = "" then
    Except.error "Hotel ID is required."
  else
    Except.ok ("Hotel " ++ hotel_id ++ " successfully booked for passenger " ++ passenger_id ++ ".")

/-- backend/tools/car_rentals.py `book_car`. -/
def book_car (car_id passenger_id : String) : Except String String :=
  if passenger_id = "" then
    Except.error "No passenger ID provided. Authorization required."
  else if car_id = "" then
    Except.error "Car ID is required."
  else
    Except.ok ("Car " ++ car_id ++ " successfully booked for passenger " ++ passenger_id ++ ".")

/-- backend/tools/excursions.py `book_excursion`. -/
def book_excursion (excursion_id passenger_id : String) : Except String String :=
  if passenger_id = "" then
    Except.error "No passenger ID provided. Authorization required."
  else if excursion_id = "" then
    Except.error "Excursion ID is required."
  else
    Except.ok ("Excursion " ++ excursion_id ++ " successfully booked for passenger " ++ passenger_id ++ ".")

/-- backend/tools/flights.py `update_ticket_to_new_flight`. -/
def update_ticket_to_new_flight (ticket_no new_flight_id passenger_id : String) :
    Except String String :=
  if passenger_id = "" then
    Except.error "No passenger ID provided. Authorization required."
  else if ticket_no = "" ∨ new_flight_id = "" then
    Except.error "Ticket number and new flight ID are required."
  else
    Except.ok ("Ticket " ++ ticket_no ++ " successfully updated to flight " ++ new_flight_id ++ ".")

/-! ## backend/tools/utilities.py -/

/-- backend/tools/utilities.py `fetch_user_info`: never raises, mock lookup. -/
def fetch_user_info (passenger_id : String) : String :=
  if passenger_id = "" then
    "No passenger information available."
  else
    "Passenger " ++ passenger_id ++ " has active booking: Flight LX123 (ZUR→JFK)."

/-! ## backend/tools/policy.py

`VectorStoreRetriever` holds the fixed chunk corpus (`_docs`, here just
their `page_content` texts) and, as an oracle, the combined external
embedding call + FAISS `index.search` pipeline, which yields the list of
retrieved row indices (FAISS may return `-1` when the corpus is small)
or fails like the embedding service.  `query` catches every exception —
embedding failure or an out-of-range index in the result-building list
comprehension — and returns `[]`.  The unused `similarity` float field
of each result is omitted: `lookup_policy` reads only `page_content`. -/

structure VectorStoreRetriever where
  docs : List String
  search : String → Nat → Except String (List Int)

/-- Python list indexing `docs[i]` with negative-index wraparound
(callers establish `-len ≤ i < len`, so the default is unreachable). -/
def pyListGet (l : List String) (i : Int) : String :=
  if i < 0 then l.getD (l.length - (-i).toNat) "" else l.getD i.toNat ""

/-- Whether `docs[i]` raises `IndexError` in Python. -/
def pyIndexOk (len : Nat) (i : Int) : Bool :=
  decide (-(len : Int) ≤ i) && decide (i < (len : Int))

/-- backend/tools/policy.py `VectorStoreRetriever.query`: embed the query and
search the index (the `search` oracle); on any exception return `[]`. -/
def VectorStoreRetriever.query (r : VectorStoreRetriever) (q : String) (k : Nat) :
    List String :=
  match r.search q k with
  | Except.error _ => []
  | Except.ok idxs =>
    if idxs.all (fun i => pyIndexOk r.docs.length i) then
      idxs.map (fun i => pyListGet r.docs i)
    else
      []

/-- backend/tools/policy.py `lookup_policy`: the module-level `retriever` is
`none` when startup initialisation failed. -/
def lookup_policy (retriever : Option VectorStoreRetriever) (q : String) : String :=
  match retriever with
  | none => "Policy lookup is currently unavailable. Please try again later."
  | some r =>
    let retrieved_docs := r.query q 2
    if retrieved_docs.isEmpty then
      "No relevant policy information found. Please contact customer service."
    else
      String.intercalate "\n\n---\n\n" retrieved_docs

/-! ## backend/agents/gemini_refiner.py

The module-level `_client` is `none` when `GEMINI_API_KEY` is unset or the
library is missing; otherwise it is the external `generate_content` call,
an oracle returning the response text or failing. -/

abbrev GeminiClient := Option (String → Except String String)

/-- backend/agents/gemini_refiner.py `refine_with_gemini`: catches every
generation error and returns the input prompt unchanged. -/
def refine_with_gemini (client : GeminiClient) (prompt : String) : String :=
  match client with
  | none => prompt
  | some gen =>
    match gen prompt with
    | Except.ok text => pyStrip text
    | Except.error _ => prompt

/-! ## backend/agents/primary_assistant.py: parameter extraction -/

/-- The fixed airport-code list of `_extract_search_params`. -/
def airports : List String := ["zur", "jfk", "lhr", "cdg", "fra", "zrh", "nyc", "lon", "par"]

/-- The fixed city list of `_extract_search_params`. -/
def cities : List String := ["zurich", "new york", "london", "paris", "frankfurt"]

/-- backend/agents/primary_assistant.py `_extract_search_params`, restricted to
the `"location"` entry of the returned dict (the only entry it ever sets).
The airport loop runs first (`break` on first hit); the city loop runs
second and overwrites any airport hit; `params["location"] = "Zurich"` when
the slot is still absent or falsy. -/
def extract_search_params_location (query : String) : String :=
  let ql := pyLower query
  let loc0 : Option String := none
  let loc1 : Option String :=
    match airports.find? (fun a => containsSub a ql) with
    | some a => some (pyUpper a)
    | none => loc0
  let loc2 : Option String :=
    match cities.find? (fun c => containsSub c ql) with
    | some c => some (pyTitle c)
    | none => loc1
  if loc2.getD "" = "" then "Zurich" else loc2.getD ""

/-! ## backend/agents/primary_assistant.py: intent routing

The keyword lists of the `elif` chain in `agent`, in source order. -/

def flightWords : List String := ["flight", "fly", "departure", "arrival"]
def hotelWords : List String := ["hotel", "stay", "accommodation", "room"]
def carWords : List String := ["car", "rental", "vehicle", "drive"]
def policyWords : List String := ["policy", "rule", "cancellation", "refund", "baggage"]
def excursionWords : List String := ["excursion", "tour", "activity", "sightseeing"]
def webWords : List String := ["delay", "status", "live", "current", "real-time"]

/-- The store-backed and web-backed tools as the orchestrator sees them:
oracles that return an arbitrary serialisable result or raise (the source
tools catch internally, but quantifying over `Except` outcomes keeps the
orchestrator's own `try/except` faithful).  Field order matches the call
sites: `search_flights(departure_airport, limit=5)`, `search_hotels(location)`,
`search_cars(location)` (with `dates=None` fixed), `lookup_policy(query)`,
`search_excursions(location)`, `search_web(query)`. -/
structure ToolEnv where
  searchFlights : String → Nat → Except String String
  searchHotels : String → Except String String
  searchCars : String → Except String String
  lookupPolicyTool : String → Except String String
  searchExcursions : String → Except String String
  searchWeb : String → Except String String

/-- The `elif` chain of `agent`: at most one domain branch runs, chosen by
the first keyword list matching the lower-cased query; its (possibly
failing) tool call produces the sole domain entry of `tool_results`. -/
def routeDomainResult (env : ToolEnv) (ql loc q : String) :
    Except String (List (String × String)) :=
  if hasAnyWord ql flightWords then
    (env.searchFlights loc 5).map (fun r => [("flights", r)])
  else if hasAnyWord ql hotelWords then
    (env.searchHotels loc).map (fun r => [("hotels", r)])
  else if hasAnyWord ql carWords then
    (env.searchCars loc).map (fun r => [("cars", r)])
  else if hasAnyWord ql policyWords then
    (env.lookupPolicyTool q).map (fun r => [("policy", r)])
  else if hasAnyWord ql excursionWords then
    (env.searchExcursions loc).map (fun r => [("excursions", r)])
  else if hasAnyWord ql webWords then
    (env.searchWeb q).map (fun r => [("web_search", r)])
  else
    Except.ok []

/-- The whole `try` block of the routing section of `agent`: keyword chain,
then `fetch_user_info` whenever `passenger_id` is truthy; any exception
collapses `tool_results` to a single `"error"` entry.  `tool_results` is
modelled as the dict's insertion-ordered entry list. -/
def routeTools (env : ToolEnv) (q passenger_id : String) : List (String × String) :=
  match routeDomainResult env (pyLower q) (extract_search_params_location q) q with
  | Except.error e => [("error", "Tool error: " ++ e)]
  | Except.ok base =>
    if passenger_id = "" then base
    else base ++ [("user_info", fetch_user_info passenger_id)]

/-! ## backend/agents/primary_assistant.py: the `agent` orchestrator -/

/-- backend/graph/workflow.py `State`. -/
structure AgentState where
  messages : List Msg
  passenger_id : String
  user_info : String
  interrupt : Bool
deriving DecidableEq, Repr

/-- Everything ambient that `agent` consumes: the clock
(`datetime.utcnow().isoformat()`), the two `json.dumps` serialisations,
the Ollama chat call (an oracle returning the raw message content or
raising), the Gemini client state, the `USE_GEMINI_REFINEMENT` flag and
the tool layer. -/
structure AgentEnv where
  now : String
  serializeHistory : List Msg → String
  serializeTools : List (String × String) → String
  ollamaChat : String → Except String String
  gemini : GeminiClient
  useGeminiRefinement : Bool
  tools : ToolEnv

/-- `*history, last_msg = messages` — everything before the final message. -/
def agentHistory (state : AgentState) : List Msg :=
  state.messages.dropLast

/-- `user_query = last_msg.get("content", "")`. -/
def agentUserQuery (state : AgentState) : String :=
  (state.messages.getLastD ⟨"", ""⟩).content

/-- `recent_history = history[-6:] if len(history) > 6 else history`. -/
def recentHistory (history : List Msg) : List Msg :=
  if history.length > 6 then history.drop (history.length - 6) else history

/-- The grounding-prompt f-string of `agent`, with the dynamic pieces
(`now`, the two serialised JSON blocks, the query, `user_info or ...`)
spliced into the fixed template text. -/
def buildPrompt (now histJson user_query toolsJson user_info : String) : String :=
  "You are a helpful Swiss Airlines virtual assistant.\n\nCurrent UTC time: "
    ++ now ++ "Z\n\nRecent conversation history:\n" ++ histJson
    ++ "\n\nUser's current question:\n" ++ user_query
    ++ "\n\nAvailable tool results (trusted data from systems):\n" ++ toolsJson
    ++ "\n\nUser information:\n"
    ++ (if user_info = "" then "No user info available" else user_info)
    ++ "\n\nINSTRUCTIONS:\n- Base your answer ONLY on the tool results provided above\n- Do NOT invent flights, prices, hotels, or policies\n- If tool results are empty or show \"No results found\", inform the user politely\n- Be concise, helpful, and professional\n- Use natural conversational language\n- If the user asks about bookings, remind them you can help with that\n- Format prices in CHF (Swiss Francs) when mentioned\n\nProvide a helpful, accurate response:"

/-- `tool_results` as assembled by the routing section of `agent`. -/
def agentToolResults (env : AgentEnv) (state : AgentState) : List (String × String) :=
  routeTools env.tools (agentUserQuery state) state.passenger_id

/-- The prompt `agent` sends to the generation backends. -/
def agentPrompt (env : AgentEnv) (state : AgentState) : String :=
  buildPrompt env.now
    (env.serializeHistory (recentHistory (agentHistory state)))
    (agentUserQuery state)
    (env.serializeTools (agentToolResults env state))
    state.user_info

/-- The fixed apology of the dead `except` branch around the Gemini fallback. -/
def fallbackApology : String :=
  "I apologize, but I'm having trouble generating a response right now. Please try again in a moment."

/-- Primary generation plus fallback: `ollama.chat(...)` with
`answer = response["message"]["content"].strip()` on success; on any
Ollama exception, `refine_with_gemini(prompt)`.  The surrounding
`except` that would substitute `fallbackApology` is unreachable because
`refine_with_gemini` catches all its own errors and never raises. -/
def agentRawAnswer (env : AgentEnv) (prompt : String) : String :=
  match env.ollamaChat prompt with
  | Except.ok content => pyStrip content
  | Except.error _ => refine_with_gemini env.gemini prompt

/-- The optional Gemini refinement pass over the generated answer. -/
def agentRefine (env : AgentEnv) (answer : String) : String :=
  if env.useGeminiRefinement && answer ≠ "" && !containsSub "apologize" (pyLower answer) then
    let refined := refine_with_gemini env.gemini
      ("Improve clarity and professionalism without adding facts:\n\n" ++ answer)
    if refined ≠ "" && !(refined.startsWith "(Gemini") then refined else answer
  else answer

/-- The content of the assistant message `agent` appends. -/
def agentAnswer (env : AgentEnv) (state : AgentState) : String :=
  agentRefine env (agentRawAnswer env (agentPrompt env state))

/-- backend/agents/primary_assistant.py `agent`: raises `ValueError` on an
empty message list, otherwise routes tools, generates an answer and appends
it as one assistant message, touching no other state field. -/
def agent (env : AgentEnv) (state : AgentState) : Except String AgentState :=
  if state.messages.isEmpty then
    Except.error "State contains no messages"
  else
    Except.ok { state with
      messages := state.messages ++ [⟨"assistant", agentAnswer env state⟩] }

/-! ## backend/graph/workflow.py -/

/-- The `config` dict: `config.get("passenger_id", "")`, `config.get("user_info", "")`. -/
structure Config where
  passenger_id : String
  user_info : String
deriving DecidableEq, Repr

/-- The `State` built by `run_graph_v4` before invoking the agent. -/
def initState (user_input : String) (config : Config) (history : List Msg) : AgentState :=
  { messages := history ++ [⟨"user", user_input⟩]
    passenger_id := config.passenger_id
    user_info := config.user_info
    interrupt := false }

/-- The fixed error reply of `run_graph_v4`'s `except` branch. -/
def workflowApology : String :=
  "I apologize, but I encountered an error processing your request. Please try again."

/-- backend/graph/workflow.py `run_graph_v4`: build the state, run the agent
(catching any exception by appending the fixed error reply), and return the
message list trimmed to its last 10 entries. -/
def run_graph_v4 (env : AgentEnv) (user_input : String) (config : Config)
    (history : List Msg) : List Msg :=
  let state := initState user_input config history
  let state2 : AgentState :=
    match agent env state with
    | Except.ok s => s
    | Except.error _ =>
      { state with messages := state.messages ++ [⟨"assistant", workflowApology⟩] }
  let messages := state2.messages
  if messages.length > 10 then messages.drop (messages.length - 10) else messages

/-- The full per-turn message list before trimming: the prior history, the
new user message, and the one assistant message the agent appends. -/
def expectedTurn (env : AgentEnv) (user_input : String) (config : Config)
    (history : List Msg) : List Msg :=
  history ++ [⟨"user", user_input⟩,
    ⟨"assistant", agentAnswer env (initState user_input config history)⟩]

/-! ## Helper lemmas -/

lemma append_ne_empty_left (s t : String) (h : s ≠ "") : s ++ t ≠ "" := by
  intro heq
  have hl := congrArg String.length heq
  rw [String.length_append] at hl
  apply h
  have hs : s.length = 0 := by
    have : (("" : String)).length = 0 := rfl
    omega
  cases s with
  | mk data =>
    cases data with
    | nil => rfl
    | cons c cs => simp [String.length, List.length] at hs

/-! ## C2: booking-tool validation -/

/-- C2 (counterexample): the claim states that on non-empty inputs each
booking call returns a confirmation string naming the entity **and the
passenger**; `update_ticket_to_new_flight "T1" "F2" "P3"` succeeds but its
confirmation does not mention passenger `"P3"` at all. -/
theorem update_ticket_confirmation_cex :
    update_ticket_to_new_flight "T1" "F2" "P3"
      = Except.ok "Ticket T1 successfully updated to flight F2."
    ∧ containsSub "P3" "Ticket T1 successfully updated to flight F2." = false := by
  exact ⟨rfl, by decide⟩

/-- C2 (amended): every booking tool (`book_hotel`, `book_car`,
`book_excursion`, `update_ticket_to_new_flight`) raises a `ValueError`
before any state change when `passenger_id` or the target entity
identifier is empty or absent, and produces no confirmation string; when
all inputs are non-empty, `book_hotel`/`book_car`/`book_excursion` return
a confirmation naming the entity and the passenger, while
`update_ticket_to_new_flight` returns a confirmation naming the ticket
and the new flight but not the passenger. -/
theorem booking_validation (hid cid eid tno fid pid : String) :
    ((pid = "" ∨ hid = "") → ∃ e, book_hotel hid pid = Except.error e)
    ∧ (pid ≠ "" → hid ≠ "" → book_hotel hid pid
        = Except.ok ("Hotel " ++ hid ++ " successfully booked for passenger " ++ pid ++ "."))
    ∧ ((pid = "" ∨ cid = "") → ∃ e, book_car cid pid = Except.error e)
    ∧ (pid ≠ "" → cid ≠ "" → book_car cid pid
        = Except.ok ("Car " ++ cid ++ " successfully booked for passenger " ++ pid ++ "."))
    ∧ ((pid = "" ∨ eid = "") → ∃ e, book_excursion eid pid = Except.error e)
    ∧ (pid ≠ "" → eid ≠ "" → book_excursion eid pid
        = Except.ok ("Excursion " ++ eid ++ " successfully booked for passenger " ++ pid ++ "."))
    ∧ ((pid = "" ∨ tno = "" ∨ fid = "") → ∃ e, update_ticket_to_new_flight tno fid pid = Except.error e)
    ∧ (pid ≠ "" → tno ≠ "" → fid ≠ "" → update_ticket_to_new_flight tno fid pid
        = Except.ok ("Ticket " ++ tno ++ " successfully updated to flight " ++ fid ++ ".")) := by
  refine ⟨?_, ?_, ?_, ?_, ?_, ?_, ?_, ?_⟩
  · rintro (h | h)
    · exact ⟨"No passenger ID provided. Authorization required.", by simp [book_hotel, h]⟩
    · by_cases hp : pid = ""
      · exact ⟨"No passenger ID provided. Authorization required.", by simp [book_hotel, hp]⟩
      · exact ⟨"Hotel ID is required.", by simp [book_hotel, hp, h]⟩
  · intro h1 h2; simp [book_hotel, h1, h2]
  · rintro (h | h)
    · exact ⟨"No passenger ID provided. Authorization required.", by simp [book_car, h]⟩
    · by_cases hp : pid = ""
      · exact ⟨"No passenger ID provided. Authorization required.", by simp [book_car, hp]⟩
      · exact ⟨"Car ID is required.", by simp [book_car, hp, h]⟩
  · intro h1 h2; simp [book_car, h1, h2]
  · rintro (h | h)
    · exact ⟨"No passenger ID provided. Authorization required.", by simp [book_excursion, h]⟩
    · by_cases hp : pid = ""
      · exact ⟨"No passenger ID provided. Authorization required.", by simp [book_excursion, hp]⟩
      · exact ⟨"Excursion ID is required.", by simp [book_excursion, hp, h]⟩
  · intro h1 h2; simp [book_excursion, h1, h2]
  · rintro (h | h | h)
    · exact ⟨"No passenger ID provided. Authorization required.",
        by simp [update_ticket_to_new_flight, h]⟩
    all_goals
      by_cases hp : pid = ""
      · exact ⟨"No passenger ID provided. Authorization required.",
          by simp [update_ticket_to_new_flight, hp]⟩
      · exact ⟨"Ticket number and new flight ID are required.",
          by simp [update_ticket_to_new_flight, hp, h]⟩
  · intro h1 h2 h3; simp [update_ticket_to_new_flight, h1, h2, h3]

/-- C2 witness: both hypothesis families are realisable — an empty
passenger id is rejected, and a fully specified hotel booking yields the
confirmation naming hotel and passenger. -/
theorem booking_validation_witness :
    (∃ e, book_hotel "H1" "" = Except.error e)
    ∧ book_hotel "H1" "P1" = Except.ok "Hotel H1 successfully booked for passenger P1." := by
  refine ⟨(booking_validation "H1" "" "" "" "" "").1 (Or.inl rfl), ?_⟩
  exact (booking_validation "H1" "" "" "" "" "P1").2.1 (by decide) (by decide)

/-! ## C9: the Gemini refiner -/

/-- C9: `refine_with_gemini` never raises — it is total.  When the client
is unconfigured (`none`) or the generation call fails, it returns the
input prompt unchanged; only on success does it return the model's
(stripped) text. -/
theorem refine_with_gemini_behavior (client : GeminiClient) (prompt : String) :
    (client = none → refine_with_gemini client prompt = prompt)
    ∧ (∀ g e, client = some g → g prompt = Except.error e →
        refine_with_gemini client prompt = prompt)
    ∧ (∀ g t, client = some g → g prompt = Except.ok t →
        refine_with_gemini client prompt = pyStrip t) := by
  refine ⟨?_, ?_, ?_⟩
  · intro h; simp [refine_with_gemini, h]
  · intro g e hg hres; simp [refine_with_gemini, hg, hres]
  · intro g t hg hres; simp [refine_with_gemini, hg, hres]

/-- C9 witness: concrete unconfigured client and concrete failing client
both return the prompt unchanged. -/
theorem refine_with_gemini_behavior_witness :
    refine_with_gemini none "p" = "p"
    ∧ refine_with_gemini (some (fun _ => Except.error "quota")) "p" = "p" := by
  constructor
  · exact (refine_with_gemini_behavior none "p").1 rfl
  · exact (refine_with_gemini_behavior (some (fun _ => Except.error "quota")) "p").2.1
      (fun _ => Except.error "quota") "quota" rfl rfl

/-! ## C10: fetch_user_info -/

/-- C10: `fetch_user_info` never raises — it is total.  On an empty or
absent `passenger_id` it returns the fixed string
`"No passenger information available."`; on a non-empty `passenger_id` it
returns a non-empty information string containing that id. -/
theorem fetch_user_info_behavior (pid : String) :
    (pid = "" → fetch_user_info pid = "No passenger information available.")
    ∧ (pid ≠ "" → fetch_user_info pid ≠ ""
        ∧ ∃ a b, fetch_user_info pid = a ++ pid ++ b) := by
  constructor
  · intro h; simp [fetch_user_info, h]
  · intro h
    constructor
    · rw [fetch_user_info, if_neg h]
      exact append_ne_empty_left "Passenger " _ (by decide)
    · exact ⟨"Passenger ", " has active booking: Flight LX123 (ZUR→JFK).",
        by simp [fetch_user_info, h]⟩

/-- C10 witness: both branches at concrete passenger ids. -/
theorem fetch_user_info_behavior_witness :
    fetch_user_info "" = "No passenger information available."
    ∧ fetch_user_info "P7" ≠ "" := by
  constructor
  · exact (fetch_user_info_behavior "").1 rfl
  · exact ((fetch_user_info_behavior "P7").2 (by decide)).1

/-! ## C6: lookup_policy -/

/-- C6: `lookup_policy` never raises — it is total.  An uninitialised
retriever yields the fixed unavailability message; a query whose
embedding/search call fails is converted to the empty result list; an
empty result list yields the fixed "no relevant policy information"
message; otherwise the retrieved chunk texts are joined with the visible
separator `"\n\n---\n\n"`. -/
theorem lookup_policy_behavior (retriever : Option VectorStoreRetriever) (q : String) :
    (retriever = none →
      lookup_policy retriever q = "Policy lookup is currently unavailable. Please try again later.")
    ∧ (∀ r e, retriever = some r → r.search q 2 = Except.error e →
        r.query q 2 = [])
    ∧ (∀ r, retriever = some r → r.query q 2 = [] →
        lookup_policy retriever q
          = "No relevant policy information found. Please contact customer service.")
    ∧ (∀ r, retriever = some r → r.query q 2 ≠ [] →
        lookup_policy retriever q = String.intercalate "\n\n---\n\n" (r.query q 2)) := by
  refine ⟨?_, ?_, ?_, ?_⟩
  · intro h; simp [lookup_policy, h]
  · intro r e _ hres; simp [VectorStoreRetriever.query, hres]
  · intro r hr hq; simp [lookup_policy, hr, hq]
  · intro r hr hq
    simp only [lookup_policy, hr]
    rw [if_neg]
    simpa [List.isEmpty_iff] using hq

/-- C6 witness: a failed-startup retriever, a failing-embedding query, and
a successful two-chunk retrieval, all at concrete inputs. -/
theorem lookup_policy_behavior_witness :
    lookup_policy none "refunds"
      = "Policy lookup is currently unavailable. Please try again later."
    ∧ VectorStoreRetriever.query ⟨["A", "B", "C"], fun _ _ => Except.error "embed down"⟩ "refunds" 2 = []
    ∧ lookup_policy (some ⟨["A", "B", "C"], fun _ _ => Except.ok [2, 0]⟩) "refunds"
      = String.intercalate "\n\n---\n\n"
          (VectorStoreRetriever.query ⟨["A", "B", "C"], fun _ _ => Except.ok [2, 0]⟩ "refunds" 2) := by
  refine ⟨?_, ?_, ?_⟩
  · exact (lookup_policy_behavior none "refunds").1 rfl
  · exact (lookup_policy_behavior
      (some ⟨["A", "B", "C"], fun _ _ => Except.error "embed down"⟩) "refunds").2.1
      ⟨["A", "B", "C"], fun _ _ => Except.error "embed down"⟩ "embed down" rfl rfl
  · exact (lookup_policy_behavior
      (some ⟨["A", "B", "C"], fun _ _ => Except.ok [2, 0]⟩) "refunds").2.2.2
      ⟨["A", "B", "C"], fun _ _ => Except.ok [2, 0]⟩ rfl (by decide)

/-! ## C4: location extraction -/

/-- C4 (counterexample): the claim states that an airport-code hit is not
overridden by a later city-name hit.  On
`"fly from jfk to london"` the airport scan does hit (`"jfk"`, so the
claimed result is `"JFK"`), yet the extracted location is `"London"`:
the city loop runs unconditionally after the airport loop and overwrites
its hit. -/
theorem extract_location_override_cex :
    airports.find? (fun a => containsSub a (pyLower "fly from jfk to london")) = some "jfk"
    ∧ extract_search_params_location "fly from jfk to london" = "London" := by
  exact ⟨by decide, by decide⟩

/-- C4 (amended): location extraction scans for known airport codes first,
then known city names, but the later city scan overwrites any airport
hit, so the effective rule is: the first matching city name (title-cased)
wins if any city matches; otherwise the first matching airport code
(upper-cased) wins; and for every utterance containing no known airport
code and no known city name the inferred location equals the fixed
default `"Zurich"`. -/
theorem extract_location_amended (query : String) :
    (cities.find? (fun c => containsSub c (pyLower query)) = none →
      airports.find? (fun a => containsSub a (pyLower query)) = none →
      extract_search_params_location query = "Zurich")
    ∧ (∀ c, cities.find? (fun c => containsSub c (pyLower query)) = some c →
        extract_search_params_location query = pyTitle c)
    ∧ (cities.find? (fun c => containsSub c (pyLower query)) = none →
        ∀ a, airports.find? (fun a => containsSub a (pyLower query)) = some a →
        extract_search_params_location query = pyUpper a) := by
  refine ⟨?_, ?_, ?_⟩
  · intro hc ha
    simp [extract_search_params_location, hc, ha]
  · intro c hc
    have hmem : c ∈ cities := List.mem_of_find?_eq_some hc
    have hne : pyTitle c ≠ "" := by
      fin_cases hmem <;> decide
    simp [extract_search_params_location, hc, hne]
  · intro hc a ha
    have hmem : a ∈ airports := List.mem_of_find?_eq_some ha
    have hne : pyUpper a ≠ "" := by
      fin_cases hmem <;> decide
    simp [extract_search_params_location, hc, ha, hne]

/-- C4 witness: the default branch and the city branch at concrete
utterances. -/
theorem extract_location_amended_witness :
    extract_search_params_location "what hotels do you have" = "Zurich"
    ∧ extract_search_params_location "fly me to paris" = "Paris" := by
  constructor
  · exact (extract_location_amended "what hotels do you have").1 (by decide) (by decide)
  · exact ((extract_location_amended "fly me to paris").2.1 "paris" (by decide)).trans (by decide)

/-! ## C3: first-match intent routing -/

/-- The six domain result keys of the keyword chain, in evaluation order. -/
def domainKeys : List String :=
  ["flights", "hotels", "cars", "policy", "excursions", "web_search"]

lemma map_single_entry (o : Except String String) (k : String) :
    (∃ e, o.map (fun r => [(k, r)]) = Except.error e)
    ∨ ∃ r, o.map (fun r => [(k, r)]) = Except.ok [(k, r)] := by
  cases o with
  | error e => exact Or.inl ⟨e, rfl⟩
  | ok r => exact Or.inr ⟨r, rfl⟩

lemma routeDomainResult_shape (env : ToolEnv) (ql loc q : String) :
    (∃ e, routeDomainResult env ql loc q = Except.error e)
    ∨ routeDomainResult env ql loc q = Except.ok []
    ∨ ∃ k r, routeDomainResult env ql loc q = Except.ok [(k, r)]
        ∧ domainKeys.contains k = true := by
  unfold routeDomainResult
  split_ifs
  case _ =>
    rcases map_single_entry (env.searchFlights loc 5) "flights" with ⟨e, he⟩ | ⟨r, hr⟩
    · exact Or.inl ⟨e, he⟩
    · exact Or.inr (Or.inr ⟨"flights", r, hr, by decide⟩)
  case _ =>
    rcases map_single_entry (env.searchHotels loc) "hotels" with ⟨e, he⟩ | ⟨r, hr⟩
    · exact Or.inl ⟨e, he⟩
    · exact Or.inr (Or.inr ⟨"hotels", r, hr, by decide⟩)
  case _ =>
    rcases map_single_entry (env.searchCars loc) "cars" with ⟨e, he⟩ | ⟨r, hr⟩
    · exact Or.inl ⟨e, he⟩
    · exact Or.inr (Or.inr ⟨"cars", r, hr, by decide⟩)
  case _ =>
    rcases map_single_entry (env.lookupPolicyTool q) "policy" with ⟨e, he⟩ | ⟨r, hr⟩
    · exact Or.inl ⟨e, he⟩
    · exact Or.inr (Or.inr ⟨"policy", r, hr, by decide⟩)
  case _ =>
    rcases map_single_entry (env.searchExcursions loc) "excursions" with ⟨e, he⟩ | ⟨r, hr⟩
    · exact Or.inl ⟨e, he⟩
    · exact Or.inr (Or.inr ⟨"excursions", r, hr, by decide⟩)
  case _ =>
    rcases map_single_entry (env.searchWeb q) "web_search" with ⟨e, he⟩ | ⟨r, hr⟩
    · exact Or.inl ⟨e, he⟩
    · exact Or.inr (Or.inr ⟨"web_search", r, hr, by decide⟩)
  case _ => exact Or.inr (Or.inl rfl)

lemma routeTools_domain_count (env : ToolEnv) (q pid : String) :
    ((routeTools env q pid).countP (fun kv => domainKeys.contains kv.1)) ≤ 1 := by
  unfold routeTools
  rcases routeDomainResult_shape env (pyLower q) (extract_search_params_location q) q with
    ⟨e, he⟩ | h | ⟨k, r, h, hk⟩
  · rw [he]
    simp [List.countP_cons, domainKeys]
  · rw [h]
    split_ifs <;> simp [List.countP_cons, domainKeys]
  · rw [h]
    split_ifs <;>
      simp [List.countP_cons, List.countP_append, domainKeys] <;>
      split_ifs <;> omega

/-- C3: the keyword chain of the intent router evaluates flight, hotel,
car, policy, excursion, live-status tests in that fixed order and only
the first match fires, so `tool_results` never contains more than one
domain key; in particular an utterance matching both a flight keyword
and a hotel keyword routes to the flight search only — the `"hotels"`
key never appears, the `"flights"` entry carries the flight tool's
result when that call succeeds, and a flight-tool exception produces the
single `"error"` entry instead. -/
theorem routing_first_match (env : ToolEnv) (q pid : String)
    (hf : hasAnyWord (pyLower q) flightWords = true)
    (_hh : hasAnyWord (pyLower q) hotelWords = true) :
    (∀ env2 q2 pid2,
      ((routeTools env2 q2 pid2).countP (fun kv => domainKeys.contains kv.1)) ≤ 1)
    ∧ "hotels" ∉ (routeTools env q pid).map Prod.fst
    ∧ (∀ r, env.searchFlights (extract_search_params_location q) 5 = Except.ok r →
        ("flights", r) ∈ routeTools env q pid)
    ∧ (∀ e, env.searchFlights (extract_search_params_location q) 5 = Except.error e →
        routeTools env q pid = [("error", "Tool error: " ++ e)]) := by
  have hroute : routeDomainResult env (pyLower q) (extract_search_params_location q) q
      = (env.searchFlights (extract_search_params_location q) 5).map
          (fun r => [("flights", r)]) := by
    unfold routeDomainResult
    rw [if_pos hf]
  refine ⟨fun env2 q2 pid2 => routeTools_domain_count env2 q2 pid2, ?_, ?_, ?_⟩
  · unfold routeTools
    rw [hroute]
    cases env.searchFlights (extract_search_params_location q) 5 with
    | error e => simp [Except.map]
    | ok r => split_ifs <;> simp [Except.map]
  · intro r hr
    unfold routeTools
    rw [hroute, hr]
    split_ifs <;> simp [Except.map]
  · intro e he
    unfold routeTools
    rw [hroute, he]
    rfl

/-- C3 witness: the spec's own example utterance, with a concrete tool
layer. -/
theorem routing_first_match_witness :
    "hotels" ∉ (routeTools
      ⟨fun _ _ => Except.ok "flightRows", fun _ => Except.ok "hotelRows",
       fun _ => Except.ok "carRows", fun _ => Except.ok "policyText",
       fun _ => Except.ok "excRows", fun _ => Except.ok "webText"⟩
      "book a flight and reserve a hotel room" "").map Prod.fst
    ∧ ("flights", "flightRows") ∈ routeTools
      ⟨fun _ _ => Except.ok "flightRows", fun _ => Except.ok "hotelRows",
       fun _ => Except.ok "carRows", fun _ => Except.ok "policyText",
       fun _ => Except.ok "excRows", fun _ => Except.ok "webText"⟩
      "book a flight and reserve a hotel room" "" := by
  have h := routing_first_match
    ⟨fun _ _ => Except.ok "flightRows", fun _ => Except.ok "hotelRows",
     fun _ => Except.ok "carRows", fun _ => Except.ok "policyText",
     fun _ => Except.ok "excRows", fun _ => Except.ok "webText"⟩
    "book a flight and reserve a hotel room" "" (by decide) (by decide)
  exact ⟨h.2.1, h.2.2.1 "flightRows" rfl⟩

/-! ## Agent-level helpers and claims C7, C8, C5, C1 -/

lemma agent_ok (env : AgentEnv) (state : AgentState) (h : state.messages ≠ []) :
    agent env state = Except.ok { state with
      messages := state.messages ++ [⟨"assistant", agentAnswer env state⟩] } := by
  have hne : state.messages.isEmpty = false := List.isEmpty_eq_false.mpr h
  simp [agent, hne]

lemma buildPrompt_ne_empty (now histJson q toolsJson userInfo : String) :
    buildPrompt now histJson q toolsJson userInfo ≠ "" := by
  unfold buildPrompt
  repeat apply append_ne_empty_left
  decide

/-- C7: on a non-empty message list the orchestrator agent returns the
state with exactly one new message appended, of role `assistant`; every
pre-existing message is unchanged and in its original position, and no
other state field (`passenger_id`, `user_info`, `interrupt`) is
modified. -/
theorem agent_append_only (env : AgentEnv) (state : AgentState)
    (h : state.messages ≠ []) :
    agent env state = Except.ok { state with
      messages := state.messages ++ [⟨"assistant", agentAnswer env state⟩] }
    ∧ ∀ s, agent env state = Except.ok s →
        s.messages.take state.messages.length = state.messages
        ∧ s.messages.length = state.messages.length + 1
        ∧ (s.messages.getLastD ⟨"", ""⟩).role = "assistant"
        ∧ s.passenger_id = state.passenger_id
        ∧ s.user_info = state.user_info
        ∧ s.interrupt = state.interrupt := by
  refine ⟨agent_ok env state h, ?_⟩
  intro s hs
  rw [agent_ok env state h] at hs
  cases hs
  refine ⟨List.take_left _ _, ?_, ?_, rfl, rfl, rfl⟩
  · simp
  · rw [List.getLastD_concat]

/-- C7 witness: a concrete one-message state with a concrete environment. -/
theorem agent_append_only_witness :
    agent
      ⟨"2025-01-01T00:00:00", fun _ => "[]", fun _ => "[]",
       fun _ => Except.ok "All good.", none, false,
       ⟨fun _ _ => Except.ok "flightRows", fun _ => Except.ok "hotelRows",
        fun _ => Except.ok "carRows", fun _ => Except.ok "policyText",
        fun _ => Except.ok "excRows", fun _ => Except.ok "webText"⟩⟩
      ⟨[⟨"user", "hi"⟩], "", "", false⟩
      = Except.ok ⟨[⟨"user", "hi"⟩, ⟨"assistant", "All good."⟩], "", "", false⟩ := by
  have h := (agent_append_only
    ⟨"2025-01-01T00:00:00", fun _ => "[]", fun _ => "[]",
     fun _ => Except.ok "All good.", none, false,
     ⟨fun _ _ => Except.ok "flightRows", fun _ => Except.ok "hotelRows",
      fun _ => Except.ok "carRows", fun _ => Except.ok "policyText",
      fun _ => Except.ok "excRows", fun _ => Except.ok "webText"⟩⟩
    ⟨[⟨"user", "hi"⟩], "", "", false⟩ (by decide)).1
  exact h

/-- C8: invoked on a state whose message list is empty, the agent fails
with the `ValueError` state error; because the result is the same for
every environment, no tool was routed, and the error result carries no
degraded assistant reply — recovery, if any, is the caller's. -/
theorem agent_empty_state (env : AgentEnv) (state : AgentState)
    (h : state.messages = []) :
    agent env state = Except.error "State contains no messages" := by
  simp [agent, h]

/-- C8 witness: the empty concrete state under a concrete environment. -/
theorem agent_empty_state_witness :
    agent
      ⟨"2025-01-01T00:00:00", fun _ => "[]", fun _ => "[]",
       fun _ => Except.ok "All good.", none, false,
       ⟨fun _ _ => Except.ok "flightRows", fun _ => Except.ok "hotelRows",
        fun _ => Except.ok "carRows", fun _ => Except.ok "policyText",
        fun _ => Except.ok "excRows", fun _ => Except.ok "webText"⟩⟩
      ⟨[], "", "", false⟩
      = Except.error "State contains no messages" :=
  agent_empty_state _ _ rfl

/-! ## C5: primary-failure fallback -/

/-- A concrete environment in which the primary backend (Ollama) raises
and the secondary backend's generation call also fails. -/
def cexEnv : AgentEnv :=
  { now := "2025-01-01T00:00:00"
    serializeHistory := fun _ => "[]"
    serializeTools := fun _ => "[]"
    ollamaChat := fun _ => Except.error "connection refused"
    gemini := some (fun _ => Except.error "quota exceeded")
    useGeminiRefinement := false
    tools :=
      ⟨fun _ _ => Except.ok "flightRows", fun _ => Except.ok "hotelRows",
       fun _ => Except.ok "carRows", fun _ => Except.ok "policyText",
       fun _ => Except.ok "excRows", fun _ => Except.ok "webText"⟩ }

/-- A concrete one-message state. -/
def cexState : AgentState := ⟨[⟨"user", "hello"⟩], "", "", false⟩

/-- C5 (counterexample): when the primary backend raises and the secondary
backend's call also fails, the appended assistant content is the prompt
itself — `refine_with_gemini` returns its input instead of raising, so
the fixed-apology branch never runs — not the fixed apology string;
moreover, when the primary backend succeeds with whitespace-only output,
the appended assistant content is empty, so not every execution path
appends non-empty content. -/
theorem fallback_apology_cex :
    agent cexEnv cexState = Except.ok { cexState with
      messages := cexState.messages ++ [⟨"assistant", agentPrompt cexEnv cexState⟩] }
    ∧ agentPrompt cexEnv cexState ≠ fallbackApology
    ∧ agent { cexEnv with ollamaChat := fun _ => Except.ok "   " } cexState
      = Except.ok { cexState with messages := cexState.messages ++ [⟨"assistant", ""⟩] } := by
  refine ⟨rfl, by decide, rfl⟩

/-- C5 (amended): on a primary-backend failure the orchestrator calls
`refine_with_gemini` with the very same prompt; when the Gemini client is
unconfigured or its generation call also fails, the pre-refinement answer
is the prompt itself — never the fixed apology, whose branch is
unreachable because `refine_with_gemini` catches its own errors — and
this answer is non-empty since the assembled prompt is never empty; the
refinement pass preserves non-emptiness, so the appended content in this
path is non-empty.  (On the primary-success path the appended content can
be empty: see the counterexample.) -/
theorem fallback_behavior (env : AgentEnv) (prompt e : String)
    (hprim : env.ollamaChat prompt = Except.error e) :
    agentRawAnswer env prompt = refine_with_gemini env.gemini prompt
    ∧ (env.gemini = none → agentRawAnswer env prompt = prompt)
    ∧ (∀ g e2, env.gemini = some g → g prompt = Except.error e2 →
        agentRawAnswer env prompt = prompt)
    ∧ (∀ st : AgentState, agentPrompt env st ≠ "")
    ∧ (∀ a : String, a ≠ "" → agentRefine env a ≠ "") := by
  refine ⟨?_, ?_, ?_, ?_, ?_⟩
  · simp [agentRawAnswer, hprim]
  · intro hg; simp [agentRawAnswer, hprim, refine_with_gemini, hg]
  · intro g e2 hg hres; simp [agentRawAnswer, hprim, refine_with_gemini, hg, hres]
  · intro st; exact buildPrompt_ne_empty _ _ _ _ _
  · intro a ha
    unfold agentRefine
    split_ifs with hcond
    · dsimp only
      split_ifs with hacc
      · have h1 := (Bool.and_eq_true _ _).mp hacc
        simpa using h1.1
      · exact ha
    · exact ha

/-- C5 witness: the amended fallback equations at the concrete failing
environment. -/
theorem fallback_behavior_witness :
    agentRawAnswer cexEnv "p" = "p" := by
  have h := fallback_behavior cexEnv "p" "connection refused" rfl
  exact h.2.2.1 (fun _ => Except.error "quota exceeded") "quota exceeded" rfl rfl

/-! ## C1: the workflow entry point -/

/-- C1: `run_graph_v4` returns the input history followed by exactly one
user message (whose content is `user_input`) and exactly one assistant
message, trimmed to the last 10: the output length is
`min (L + 2) 10`; when `L + 2 ≤ 10` no front element is dropped; when
`L + 2 > 10` exactly the oldest `L + 2 - 10` messages are dropped and
the remaining messages keep their relative order. -/
theorem run_graph_v4_shape (env : AgentEnv) (user_input : String) (config : Config)
    (history : List Msg) :
    run_graph_v4 env user_input config history
      = (if (expectedTurn env user_input config history).length > 10
         then (expectedTurn env user_input config history).drop
                ((expectedTurn env user_input config history).length - 10)
         else expectedTurn env user_input config history)
    ∧ (run_graph_v4 env user_input config history).length = min (history.length + 2) 10
    ∧ (history.length + 2 ≤ 10 →
        run_graph_v4 env user_input config history = expectedTurn env user_input config history)
    ∧ (10 < history.length + 2 →
        run_graph_v4 env user_input config history
          = (expectedTurn env user_input config history).drop (history.length + 2 - 10)) := by
  have hne : (initState user_input config history).messages ≠ [] := by
    simp [initState]
  have hmsgs : (initState user_input config history).messages
      ++ [⟨"assistant", agentAnswer env (initState user_input config history)⟩]
      = expectedTurn env user_input config history := by
    simp [initState, expectedTurn]
  have hrun : run_graph_v4 env user_input config history
      = (if (expectedTurn env user_input config history).length > 10
         then (expectedTurn env user_input config history).drop
                ((expectedTurn env user_input config history).length - 10)
         else expectedTurn env user_input config history) := by
    unfold run_graph_v4
    dsimp only
    rw [agent_ok env _ hne]
    dsimp only
    rw [hmsgs]
  have hlen : (expectedTurn env user_input config history).length = history.length + 2 := by
    simp [expectedTurn]
  refine ⟨hrun, ?_, ?_, ?_⟩
  · rw [hrun]
    split_ifs with hgt
    · rw [List.length_drop, hlen]
      omega
    · rw [hlen] at hgt ⊢
      omega
  · intro hle
    rw [hrun, if_neg (by omega : ¬ (expectedTurn env user_input config history).length > 10)]
  · intro hgt
    rw [hrun, if_pos (by omega : (expectedTurn env user_input config history).length > 10), hlen]

/-- C1 witness: a concrete empty-history turn has length `min 2 10 = 2`
and drops nothing, and a concrete 9-message history is trimmed to 10. -/
theorem run_graph_v4_shape_witness :
    (run_graph_v4 cexEnv "hi" ⟨"", ""⟩ []).length = min (0 + 2) 10
    ∧ run_graph_v4 cexEnv "hi" ⟨"", ""⟩ (List.replicate 9 ⟨"user", "x"⟩)
      = (expectedTurn cexEnv "hi" ⟨"", ""⟩ (List.replicate 9 ⟨"user", "x"⟩)).drop (9 + 2 - 10) := by
  constructor
  · have h := (run_graph_v4_shape cexEnv "hi" ⟨"", ""⟩ []).2.1
    simpa using h
  · exact (run_graph_v4_shape cexEnv "hi" ⟨"", ""⟩ (List.replicate 9 ⟨"user", "x"⟩)).2.2.2
      (by simp [List.length_replicate])

end Swiss
